import Mathlib

/-!
Shallow embedding of the concurrent ZIP-resolution batch scripts
(`ups_priority.py`, `fedex_scraper.py`): the key normalizer, the
terminal-state pollers, the per-key attempt loops, the resumption
key-selection of the batch entry point, and the output merge step,
together with proofs of the specification claims about them.

Python strings are modelled as `String` (lists of characters); the
per-attempt interactions with the live browser session are modelled by
explicit environment values describing what each sampled page / each
attempt observably did.
-/

/-! ## Character and string helpers (Python `str` primitives) -/

/-- Whitespace removed by Python `str.strip()` / split by `str.split()`
(the ASCII whitespace characters). -/
def isPySpace (c : Char) : Bool :=
  c == ' ' || c == '\t' || c == '\n' || c == '\r' || c == '\x0b' || c == '\x0c'

/-- Python `str.strip()` on a character list: drop leading and trailing
whitespace. -/
def pyStrip (cs : List Char) : List Char :=
  ((cs.dropWhile isPySpace).reverse.dropWhile isPySpace).reverse

/-- Python `str.strip()`. -/
def pyStripStr (s : String) : String :=
  String.mk (pyStrip s.data)

/-- Python `s[:n]`. -/
def takeChars (n : Nat) (s : String) : String :=
  String.mk (s.data.take n)

/-- Python `str.lower()` (ASCII case folding). -/
def lowerStr (s : String) : String :=
  String.mk (s.data.map Char.toLower)

/-- Boolean list-prefix test. -/
def isPrefixB : List Char → List Char → Bool
  | [], _ => true
  | _ :: _, [] => false
  | a :: as, b :: bs => a == b && isPrefixB as bs

/-- Boolean substring (contiguous) test on character lists. -/
def isInfixB : List Char → List Char → Bool
  | n, [] => isPrefixB n []
  | n, h :: t => isPrefixB n (h :: t) || isInfixB n t

/-- Python `needle in hay` on strings (substring containment). -/
def isSubstr (needle hay : String) : Bool :=
  isInfixB needle.data hay.data

/-- Index of the first occurrence of `n` in `h` (Python `str.find`,
`none` for `-1`). -/
def findSubIdx : List Char → List Char → Option Nat
  | n, [] => if isPrefixB n [] then some 0 else none
  | n, h :: t =>
    if isPrefixB n (h :: t) then some 0
    else (findSubIdx n t).map (· + 1)

/-- Helper for Python `str.split()` with no arguments: split on
whitespace runs, dropping empty pieces.  `acc` is the (reversed)
current word. -/
def pyWordsAux : List Char → List Char → List (List Char)
  | [], acc => if acc.isEmpty then [] else [acc.reverse]
  | c :: cs, acc =>
    if isPySpace c then
      if acc.isEmpty then pyWordsAux cs [] else acc.reverse :: pyWordsAux cs []
    else pyWordsAux cs (c :: acc)

/-- `" ".join(s.split())`: collapse whitespace runs to single spaces and
strip the ends (the `_space` / `collapse` helper of both scripts). -/
def collapse (s : String) : String :=
  String.mk (List.intercalate [' '] (pyWordsAux s.data []))

/-! ## Key Normalizer (`normalize_zip`, identical in both scripts) -/

/-- `re.fullmatch(r"\d+\.0+", s)`: one or more digits, a dot, then one
or more zeros, consuming the whole string. -/
def matchesIntDotZeros (cs : List Char) : Bool :=
  let ds := cs.takeWhile Char.isDigit
  let rest := cs.dropWhile Char.isDigit
  !ds.isEmpty &&
    match rest with
    | '.' :: zs => !zs.isEmpty && zs.all (fun c => c == '0')
    | _ => false

/-- Python `str.zfill` for the digit strings occurring here: left-pad
with zeros to width `w`. -/
def zfill (w : Nat) (cs : List Char) : List Char :=
  List.replicate (w - cs.length) '0' ++ cs

/-- Core of `normalize_zip` on character lists: strip whitespace; strip
a trailing `.0…` suffix produced by numeric coercion (`s.split(".")[0]`
when the full-match fires); remove all non-digits; empty stays empty;
pad to width 5 when shorter. -/
def normalizeZipChars (cs : List Char) : List Char :=
  let s := pyStrip cs
  if s.isEmpty then []
  else
    let s := if matchesIntDotZeros s then s.takeWhile (fun c => c != '.') else s
    let s := s.filter Char.isDigit
    if s.isEmpty then []
    else if s.length < 5 then zfill 5 s else s

/-- `normalize_zip` (`ups_priority.py` lines 154-165 and
`fedex_scraper.py` lines 123-136; the two definitions are identical). -/
def normalize_zip (val : String) : String :=
  String.mk (normalizeZipChars val.data)

/-- The digit characters that survive normalization: whitespace-strip,
then the `.0…`-suffix strip, then the digit filter.  Used to state the
shape of `normalize_zip`'s output. -/
def strippedDigitsChars (cs : List Char) : List Char :=
  let s := pyStrip cs
  let s := if matchesIntDotZeros s then s.takeWhile (fun c => c != '.') else s
  s.filter Char.isDigit

/-- `strippedDigitsChars` on a string. -/
def strippedDigits (val : String) : List Char :=
  strippedDigitsChars val.data

/-! ## Terminal-State Poller: UPS (`wait_for_result_or_terminal_state`) -/

/-- `NO_DATA_TEXT_SNIPPETS` of `ups_priority.py`. -/
def NO_DATA_TEXT_SNIPPETS : List String :=
  ["there is no information for zip code",
   "either the zip code does not exist",
   "entered incorrectly"]

/-- `BASE_URL` of `ups_priority.py`. -/
def BASE_URL : String := "https://www.ups.com/maps/?loc=en_CB"

/-- One observable sample of the UPS result page.  `bodyText` is the raw
body text (`get_body_text_lower` lowercases it), `imgSrc` the `src` of
`img#imgMap, img[src*='servicemaps']` (empty when absent), `boldText`
the text of `span.bold` (empty when absent).  `errorText` and `pageZip`
are what the DOM extraction helpers `extract_visible_error_text` and
`extract_zip_from_error_text` return for this page; those helpers walk
the live DOM, so their results are part of the observed page state. -/
structure UpsPage where
  bodyText : String
  imgSrc : String
  boldText : String
  errorText : String
  pageZip : String
deriving DecidableEq

/-- `detect_no_info_state` (`ups_priority.py` lines 642-653), reduced to
its firing condition: a known no-data snippet occurs in the lowercased
body text, or the ground-maps error combination does. -/
def detect_no_info (p : UpsPage) : Bool :=
  let txt := lowerStr p.bodyText
  NO_DATA_TEXT_SNIPPETS.any (fun s => isSubstr s txt) ||
    (isSubstr "u.s. ground maps" txt && isSubstr "error" txt &&
      isSubstr "no information" txt)

/-- The result dictionary of `wait_for_result_or_terminal_state`: a
`status` string plus the fields filled by the returning branch. -/
structure UpsPoll where
  status : String
  errorText : String := ""
  pageZip : String := ""
  imgSrc : String := ""
  bold : String := ""
  err : String := ""
deriving DecidableEq

/-- The change test of the polling loop: a nonempty map-image `src`
differing from the pre-submission snapshot, or a nonempty `span.bold`
text differing from its snapshot. -/
def ups_sample_change (prevSrc prevTxt : String) (p : UpsPage) : Bool :=
  (p.imgSrc != "" && p.imgSrc != prevSrc) ||
    (p.boldText != "" && p.boldText != prevTxt)

/-- The `while time.time() < end` loop of
`wait_for_result_or_terminal_state`: each element of `pages` is the page
observed by one 250 ms iteration; an exhausted list is the elapsed
deadline. -/
def ups_poll_loop (prevSrc prevTxt : String) : List UpsPage → UpsPoll
  | [] =>
    { status := "TIMEOUT", err := "Timed out waiting for results OR error state" }
  | p :: rest =>
    if detect_no_info p then
      { status := "NO_DATA", errorText := p.errorText, pageZip := p.pageZip }
    else if ups_sample_change prevSrc prevTxt p then
      { status := "OK", imgSrc := p.imgSrc, bold := p.boldText }
    else ups_poll_loop prevSrc prevTxt rest

/-- `wait_for_result_or_terminal_state` (`ups_priority.py` lines
656-682): an immediate no-data check on the entry page, then the
sampling loop until the deadline. -/
def wait_for_result_or_terminal_state (prevSrc prevTxt : String)
    (entry : UpsPage) (pages : List UpsPage) : UpsPoll :=
  if detect_no_info entry then
    { status := "NO_DATA", errorText := entry.errorText, pageZip := entry.pageZip }
  else ups_poll_loop prevSrc prevTxt pages

/-! ## Terminal-State Poller: FedEx (`wait_fedex_result_or_terminal`) -/

/-- `NO_DATA_SNIPPETS` of `fedex_scraper.py`. -/
def NO_DATA_SNIPPETS : List String :=
  ["no results", "no information", "invalid", "not found", "try again",
   "either the zip code does not exist"]

/-- `FEDEX_BASE_URL` of `fedex_scraper.py`. -/
def FEDEX_BASE_URL : String := "https://www.fedexfreight.fedex.com/servicemaps.jsp"

/-- `clean_message` (`fedex_scraper.py` lines 322-343): collapse
whitespace, start at the first start-keyword found (keyword list order),
cut at the earliest cut-keyword occurrence, stripping around both. -/
def clean_message (text : String) : String :=
  if text = "" then ""
  else
    let t := collapse text
    let low := (lowerStr t).data
    let startKeys : List String :=
      ["sorry", "error", "no information", "no results", "invalid", "not found"]
    let startIdx :=
      match startKeys.findSome? (fun k => findSubIdx k.data low) with
      | some i => i
      | none => 0
    let t2 := pyStrip (t.data.drop startIdx)
    let low2 := t2.map Char.toLower
    let cutKeys : List String := ["support", "tracking", "ups sites", "connect with us"]
    let cut := cutKeys.foldl
      (fun acc k =>
        match findSubIdx k.data low2 with
        | some i => min acc i
        | none => acc) t2.length
    String.mk (pyStrip (t2.take cut))

/-- One observable sample of the FedEx result page.  `pdfLink` is the
map PDF link found by `get_pdf_map_link` (empty when absent),
`hiddenVal` the hidden map-URL field value of `get_hidden_map_url`,
`errElemText` the first nonempty collapsed `.errortext` element text,
`alertText` the first nonempty candidate text used by
`extract_fedex_message`, and `bodyText` the body text. -/
structure FedexPage where
  pdfLink : String
  hiddenVal : String
  errElemText : String
  alertText : String
  bodyText : String
deriving DecidableEq

/-- `detect_fedex_no_data` (`fedex_scraper.py` lines 346-363): a
nonempty `.errortext` element, or a known snippet in the lowercased
body text. -/
def detect_fedex_no_data (p : FedexPage) : Bool :=
  p.errElemText != "" ||
    NO_DATA_SNIPPETS.any (fun s => isSubstr s (lowerStr p.bodyText))

/-- `extract_fedex_message` (`fedex_scraper.py` lines 296-319): clean
the first nonempty candidate element text, falling back to the body. -/
def extract_fedex_message (p : FedexPage) : String :=
  clean_message (if p.alertText != "" then p.alertText else p.bodyText)

/-- The result dictionary of `wait_fedex_result_or_terminal`. -/
structure FxPoll where
  status : String
  mapSrc : String := ""
  resultText : String := ""
  cleanMsg : String := ""
  err : String := ""
deriving DecidableEq

/-- The marker checks performed both immediately on entry and by every
loop iteration of `wait_fedex_result_or_terminal`, in source order:
PDF map link, hidden map-URL field, no-data detection. -/
def fx_quick (p : FedexPage) : Option FxPoll :=
  if p.pdfLink != "" then
    some { status := "OK", mapSrc := p.pdfLink, resultText := "Success" }
  else if p.hiddenVal != "" then
    some { status := "OK", mapSrc := p.hiddenVal, resultText := "Success" }
  else if detect_fedex_no_data p then
    some { status := "NO_DATA", cleanMsg := extract_fedex_message p }
  else none

/-- The `while time.time() < end` loop of
`wait_fedex_result_or_terminal`: the quick marker checks, then the
collapsed-body change test against the pre-submission snapshot. -/
def fx_loop (prevMarker : String) : List FedexPage → FxPoll
  | [] => { status := "TIMEOUT", err := "Timed out waiting for results" }
  | p :: rest =>
    match fx_quick p with
    | some r => r
    | none =>
      let txt := collapse p.bodyText
      if txt != "" && txt != prevMarker then
        { status := "OK", mapSrc := "", resultText := clean_message txt }
      else fx_loop prevMarker rest

/-- `wait_fedex_result_or_terminal` (`fedex_scraper.py` lines 395-431):
quick checks on the entry page (no change test there), then the
sampling loop until the deadline. -/
def wait_fedex_result_or_terminal (prevMarker : String)
    (entry : FedexPage) (pages : List FedexPage) : FxPoll :=
  match fx_quick entry with
  | some r => r
  | none => fx_loop prevMarker pages

/-! ## Attempt Controller: UPS (`process_zip` of `ups_priority.py`) -/

/-- `MAX_RETRIES` of `ups_priority.py`. -/
def MAX_RETRIES : Nat := 3

/-- `UNRESPONSIVE_PAUSE` of `ups_priority.py` (seconds slept when the
connectivity check fails). -/
def UNRESPONSIVE_PAUSE : Nat := 120

/-- `make_error` (`ups_priority.py` lines 465-469): strip the three
strings and truncate the message to 250 characters. -/
def make_error (step ty msg : String) : String × String × String :=
  (pyStripStr step, pyStripStr ty, takeChars 250 (pyStripStr msg))

/-- The fields of `parse_results` consumed by `process_zip`
(`ups_priority.py` lines 700-737). -/
structure Parsed where
  city : String := ""
  state : String := ""
  zip : String := ""
  shipDate : String := ""
  locationText : String := ""
  imageUrl : String := ""
deriving DecidableEq

/-- What one iteration of the attempt loop observably did once the
connectivity check passed: an exception escaping the per-step handlers
(caught by the outer handler), a `WebDriverException` on `driver.get`,
a missing ZIP input field, or a submit followed by the poller running
over the given page samples and `parse_results` yielding `parsedHtml`
if the poller reported a change. -/
inductive UpsAttempt where
  | raised (msg : String)
  | loadFail
  | inputFail
  | polled (prevSrc prevTxt : String) (entry : UpsPage) (pages : List UpsPage)
      (parsedHtml : Parsed)
deriving DecidableEq

/-- The environment of one iteration of the `while` loop of
`process_zip`: the stop flag at the loop condition, whether
`wait_if_paused` returned false (stop during pause), the connectivity
check, whether `maybe_maintenance` fired (bumping the session version),
and the attempt body's behaviour. -/
structure UpsIterEnv where
  stopAtLoop : Bool
  pauseStop : Bool
  online : Bool
  maint : Bool
  attempt : UpsAttempt
deriving DecidableEq

/-- The mutable state of `process_zip`'s attempt loop.  `bumps` counts
`bump_session_version` calls (session invalidations), `offlineSleeps`
the seconds slept in the connectivity branch, `raised` an exception
propagating to the outer handler. -/
structure UpsLoopState where
  attempts : Nat
  bumps : Nat
  offlineSleeps : Nat
  status : String
  errorStep : String
  errorType : String
  errorMessage : String
  parsed : Parsed
  raised : Option String
deriving DecidableEq

/-- The initial loop state of `process_zip` (`status_val = "SKIPPED"`,
empty error triple, empty parsed fields). -/
def upsInitState : UpsLoopState :=
  { attempts := 0, bumps := 0, offlineSleeps := 0, status := "SKIPPED",
    errorStep := "", errorType := "", errorMessage := "", parsed := {},
    raised := none }

/-- Assembly of the NO_DATA page error message (`ups_priority.py` lines
974-979): strip the extracted error text, append the detected page ZIP
when it is not already mentioned, and fall back to a fixed message. -/
def noDataMessage (errorText pageZip : String) : String :=
  let pe := pyStripStr errorText
  let pe :=
    if pageZip != "" && !isSubstr pageZip pe then
      if pe != "" then pe ++ " (page_zip_detected=" ++ pageZip ++ ")"
      else "page_zip_detected=" ++ pageZip
    else pe
  if pe = "" then "NO_DATA page detected but error text not found" else pe

/-- The attempt loop of `process_zip` (`ups_priority.py` lines 893-1082,
with `SAVE_IMAGES = False` so the image-download block is skipped and a
successful parse yields status `OK`).  Each list element drives one
iteration of `while attempts < MAX_RETRIES and not stop_event.is_set()`;
an exhausted list leaves the state as the loop would on stop. -/
def ups_loop : List UpsIterEnv → UpsLoopState → UpsLoopState
  | [], st => st
  | e :: rest, st =>
    if st.attempts < MAX_RETRIES ∧ e.stopAtLoop = false then
      if e.pauseStop then st
      else if e.online = false then
        let me := make_error "OFFLINE" "NO_INTERNET"
          "Internet not available; paused and retrying."
        ups_loop rest
          { st with errorStep := me.1, errorType := me.2.1, errorMessage := me.2.2,
                    offlineSleeps := st.offlineSleeps + UNRESPONSIVE_PAUSE }
      else
        let st := { st with bumps := st.bumps + (if e.maint then 1 else 0),
                            attempts := st.attempts + 1 }
        match e.attempt with
        | .raised m => { st with raised := some m }
        | .loadFail =>
          let me := make_error "LOAD_PAGE" "TIMEOUT" "Timeout / Site not responding"
          ups_loop rest
            { st with errorStep := me.1, errorType := me.2.1, errorMessage := me.2.2,
                      bumps := st.bumps + 1 }
        | .inputFail =>
          let me := make_error "FIND_INPUT" "CAPTCHA_OR_BLOCKED"
            "ZIP input not found (captcha/block/DOM changed)."
          ups_loop rest
            { st with errorStep := me.1, errorType := me.2.1, errorMessage := me.2.2,
                      bumps := st.bumps + 1 }
        | .polled prevSrc prevTxt entry pages parsedHtml =>
          let r := wait_for_result_or_terminal_state prevSrc prevTxt entry pages
          if r.status = "NO_DATA" then
            let me := make_error "WAIT_RESULT" "NO_DATA"
              (noDataMessage r.errorText r.pageZip)
            { st with errorStep := me.1, errorType := me.2.1, errorMessage := me.2.2,
                      status := "SKIPPED", parsed := {} }
          else if r.status = "TIMEOUT" then
            let me := make_error "WAIT_RESULT" "RESULT_TIMEOUT" r.err
            ups_loop rest
              { st with errorStep := me.1, errorType := me.2.1,
                        errorMessage := me.2.2, bumps := st.bumps + 1 }
          else
            if parsedHtml.locationText = "" then
              let me := make_error "PARSE" "PARSE_FAILED"
                "Result loaded but expected fields not found."
              ups_loop rest
                { st with parsed := parsedHtml, errorStep := me.1,
                          errorType := me.2.1, errorMessage := me.2.2,
                          bumps := st.bumps + 1 }
            else { st with parsed := parsedHtml, status := "OK" }
    else st

/-- The persisted row of `ups_priority.py` (`cols` of `run_batch`). -/
structure UpsRec where
  zip : String
  city : String
  state : String
  shipDate : String
  locationText : String
  imageUrl : String
  imageFile : String
  status : String
  errorStep : String
  errorType : String
  errorMessage : String
  rawUrl : String
deriving DecidableEq

/-- Simplified model of `urllib.parse.urljoin` for the URLs occurring
here: an absolute URL stands alone, anything else is appended to the
base. -/
def urljoinApprox (base rel : String) : String :=
  if isPrefixB "http://".data rel.data || isPrefixB "https://".data rel.data then rel
  else base ++ rel

/-- `process_zip` (`ups_priority.py` lines 878-1110): normalize the key,
run the attempt loop, apply the post-loop SKIPPED fallback (lines
1084-1087) or the outer exception handler (lines 1088-1091), and build
the result row appended to `results_rows`.  Exactly one row is returned
for every invocation. -/
def process_zip_ups (zipRaw : String) (envs : List UpsIterEnv) : UpsRec :=
  let zipcode := normalize_zip (pyStripStr zipRaw)
  let st := ups_loop envs upsInitState
  let st :=
    match st.raised with
    | some m =>
      let me := make_error "UNEXPECTED" "EXCEPTION" ("Unexpected error: " ++ m)
      { st with status := "ERROR", errorStep := me.1, errorType := me.2.1,
                errorMessage := me.2.2 }
    | none =>
      if st.status ≠ "OK" ∧ st.status ≠ "OK_WITH_IMAGE_ERROR" then
        if st.errorMessage = "" then
          let me := make_error "UNKNOWN" "UNKNOWN" "Timeout / Site not responding"
          { st with status := "SKIPPED", errorStep := me.1, errorType := me.2.1,
                    errorMessage := me.2.2 }
        else { st with status := "SKIPPED" }
      else st
  { zip := zipcode, city := st.parsed.city, state := st.parsed.state,
    shipDate := st.parsed.shipDate, locationText := st.parsed.locationText,
    imageUrl := if st.parsed.imageUrl ≠ "" then urljoinApprox BASE_URL st.parsed.imageUrl
                else "",
    imageFile := "", status := st.status, errorStep := st.errorStep,
    errorType := st.errorType, errorMessage := st.errorMessage, rawUrl := BASE_URL }

/-- The rows accumulated in `results_rows` by a batch: every submitted
key runs `process_zip` (queued futures are not cancelled by the executor
shutdown) and appends exactly one row. -/
def ups_batch_rows (entries : List (String × List UpsIterEnv)) : List UpsRec :=
  entries.map (fun e => process_zip_ups e.1 e.2)

/-! ## Attempt Controller: FedEx (`process_zip` of `fedex_scraper.py`) -/

/-- What one iteration of the FedEx attempt loop observably did: an
exception anywhere in the body (caught by the per-iteration handler),
no ZIP input field found, a failure to fill it, or a submit followed by
the poller running over the given page samples. -/
inductive FxAttempt where
  | raised (msg : String)
  | noInput
  | fillFail
  | polled (prevMarker : String) (entry : FedexPage) (pages : List FedexPage)
deriving DecidableEq

/-- The environment of one iteration of the FedEx attempt loop: the
stop flag at the loop condition and the attempt body's behaviour. -/
structure FxIterEnv where
  stopAtLoop : Bool
  attempt : FxAttempt
deriving DecidableEq

/-- The mutable state of the FedEx `process_zip` loop.  `longPauses`
counts the 60 s pauses taken after three consecutive timeouts. -/
structure FxLoopState where
  attempts : Nat
  timeoutStreak : Nat
  longPauses : Nat
  status : String
  errorStep : String
  errorType : String
  errorMessage : String
  resultText : String
  mapUrl : String
deriving DecidableEq

/-- The initial FedEx loop state (`status = STATUS_ERROR`). -/
def fxInitState : FxLoopState :=
  { attempts := 0, timeoutStreak := 0, longPauses := 0, status := "ERROR",
    errorStep := "", errorType := "", errorMessage := "", resultText := "",
    mapUrl := "" }

/-- The attempt loop of the FedEx `process_zip` (`fedex_scraper.py`
lines 532-598): `while attempts < 2 and not stop_event.is_set()`, with
a timeout continuing the loop (pausing 60 s every third consecutive
timeout) and every other outcome breaking. -/
def fx_loop_run : List FxIterEnv → FxLoopState → FxLoopState
  | [], st => st
  | e :: rest, st =>
    if st.attempts < 2 ∧ e.stopAtLoop = false then
      let st := { st with attempts := st.attempts + 1 }
      match e.attempt with
      | .raised m =>
        { st with errorStep := "UNEXPECTED", errorType := "EXCEPTION",
                  errorMessage := m }
      | .noInput =>
        { st with errorStep := "FIND_INPUT", errorType := "NO_INPUT",
                  errorMessage := "ZIP input not found" }
      | .fillFail =>
        { st with errorStep := "FILL_INPUT", errorType := "FAILED",
                  errorMessage := "Could not enter ZIP" }
      | .polled prevMarker entry pages =>
        let r := wait_fedex_result_or_terminal prevMarker entry pages
        if r.status = "NO_DATA" then
          { st with status := "NO_DATA", errorStep := "WAIT_RESULT",
                    errorType := "NO_DATA", resultText := "No results found",
                    errorMessage := "No transit map available for this ZIP code" }
        else if r.status = "TIMEOUT" then
          let streak := st.timeoutStreak + 1
          if 3 ≤ streak then
            fx_loop_run rest
              { st with timeoutStreak := 0, longPauses := st.longPauses + 1 }
          else fx_loop_run rest { st with timeoutStreak := streak }
        else
          if r.mapSrc ≠ "" then
            { st with status := "OK", resultText := r.resultText, mapUrl := r.mapSrc }
          else
            { st with status := "NO_DATA", errorStep := "WAIT_RESULT",
                      errorType := "NO_DATA", resultText := "No results found",
                      errorMessage := "No transit map available for this ZIP code" }
    else st

/-- The persisted row of `fedex_scraper.py` (`cols` of its
`run_batch`). -/
structure FxRec where
  zip : String
  status : String
  errorStep : String
  errorType : String
  errorMessage : String
  resultText : String
  mapUrl : String
  pageUrl : String
deriving DecidableEq

/-- The FedEx `process_zip` (`fedex_scraper.py` lines 511-635): an
immediate return with no row when the stop signal is already set on
entry (lines 512-513); then the pre-loop setup — the selenium imports
(lines 514-516), `build_driver()` and `set_page_load_timeout` (lines
528-529) — which sits under a `try` that has only a `finally` (line
611), so an exception there (`driverFail`) escapes `process_zip` before
the row is built and appends no row either; otherwise the attempt loop,
the post-loop timeout fallback (lines 601-603), the OK-without-map
reclassification (lines 605-609), and exactly one appended row. -/
def process_zip_fedex (stopAtEntry driverFail : Bool) (zipRaw : String)
    (envs : List FxIterEnv) : Option FxRec :=
  if stopAtEntry then none
  else if driverFail then none
  else
    let zipcode := normalize_zip zipRaw
    let st := fx_loop_run envs fxInitState
    let st :=
      if st.status ≠ "OK" ∧ st.status ≠ "NO_DATA" ∧ st.errorStep = "" then
        { st with status := "TIMEOUT", errorStep := "WAIT_RESULT",
                  errorType := "RESULT_TIMEOUT",
                  errorMessage := "Timed out waiting for results" }
      else st
    let st :=
      if st.status = "OK" ∧ st.mapUrl = "" then
        { st with status := "NO_DATA", errorStep := "WAIT_RESULT",
                  errorType := "NO_DATA", resultText := "No results found",
                  errorMessage := "No transit map available for this ZIP code" }
      else st
    some { zip := zipcode, status := st.status, errorStep := st.errorStep,
           errorType := st.errorType, errorMessage := st.errorMessage,
           resultText := st.resultText, mapUrl := st.mapUrl,
           pageUrl := FEDEX_BASE_URL }

/-- The rows accumulated in `results_rows` by a FedEx batch: keys whose
`process_zip` produced no row (stop already asserted on entry, or an
escaped pre-loop exception) leave no trace.  Each entry is
(stop-at-entry, driver-construction-failure, raw key, loop
environment). -/
def fedex_batch_rows (entries : List (Bool × Bool × String × List FxIterEnv)) :
    List FxRec :=
  entries.filterMap (fun e => process_zip_fedex e.1 e.2.1 e.2.2.1 e.2.2.2)

/-! ## Result Aggregator & Writer (`write_output_file` in both scripts) -/

/-- `pandas.DataFrame.drop_duplicates(subset=[k], keep="last")`: keep a
row exactly when no later row has the same key. -/
def dropDupKeepLast {α : Type} (key : α → String) : List α → List α
  | [] => []
  | r :: rs =>
    if rs.any (fun x => key x == key r) then dropDupKeepLast key rs
    else r :: dropDupKeepLast key rs

/-- Number of rows of `l` whose key is `k`. -/
def countKey {α : Type} (key : α → String) (k : String) (l : List α) : Nat :=
  l.countP (fun x => key x == k)

/-- `write_output_file` of `ups_priority.py` (lines 432-462) as a table
transformation: concatenate the pre-existing rows with the new rows
(`pd.concat`, which is the identity concatenation also when the
existing table is empty) and drop duplicate ZIP keys keeping the last
row. -/
def write_output_file_ups (existing rows : List UpsRec) : List UpsRec :=
  dropDupKeepLast (fun r => r.zip) (existing ++ rows)

/-- `write_output_file` of `fedex_scraper.py` (lines 217-277) as a table
transformation: concatenate the pre-existing rows with the new rows.
No deduplication is performed. -/
def write_output_file_fedex (existing rows : List FxRec) : List FxRec :=
  existing ++ rows

/-- The final persisted output of a UPS batch run: the merge of the
pre-existing table with the accumulated result rows
(`run_batch`, `ups_priority.py` lines 1179-1181). -/
def ups_final_output (existing : List UpsRec)
    (entries : List (String × List UpsIterEnv)) : List UpsRec :=
  write_output_file_ups existing (ups_batch_rows entries)

/-! ## Scheduler key selection (`run_batch` of `ups_priority.py`) -/

/-- A `pathlib` path, reduced to the pieces `run_batch` manipulates:
`p.stem` and `p.suffix`. -/
structure PathName where
  stem : String
  suffix : String
deriving DecidableEq

/-- `p.with_name(f"{p.stem}_{stamp}{p.suffix}")` as performed by
`ensure_unique_output_path`. -/
def with_stamp (p : PathName) (stamp : String) : PathName :=
  { p with stem := p.stem ++ "_" ++ stamp }

/-- The filesystem as seen through `read_input_rows`: a path is mapped
to the list of normalized ZIP keys readable from it, or `none` when no
file exists there. -/
def FileSys : Type := PathName → Option (List String)

/-- `ensure_unique_output_path` (`ups_priority.py` lines 200-207): keep
a nonexistent target, divert an existing one to a timestamped sibling
name. -/
def ensure_unique_output_path (fs : FileSys) (p : PathName) (stamp : String) :
    PathName :=
  if fs p = none then p else with_stamp p stamp

/-- `load_processed_zips` (`ups_priority.py` lines 574-584): the keys
readable from the path, empty when the file does not exist (or cannot
be read). -/
def load_processed_zips (fs : FileSys) (p : PathName) : List String :=
  match fs p with
  | none => []
  | some zs => zs

/-- The key-selection portion of `run_batch` (`ups_priority.py` lines
1141-1163): divert the output path through `ensure_unique_output_path`,
load the already-processed keys from the resulting path, and when that
set is nonempty filter them out of the input keys.  The returned list
is what gets dispatched to the worker pool. -/
def run_batch_dispatch (fs : FileSys) (zips : List String) (outPath : PathName)
    (stamp : String) : List String :=
  let outP := ensure_unique_output_path fs outPath stamp
  let already := load_processed_zips fs outP
  if already.isEmpty then zips
  else zips.filter (fun z => already.contains z = false)

/-! ## Concrete fixtures used by witnesses and counterexamples -/

/-- A concrete filesystem: the output path `out.xlsm` exists and holds
the keys `00501` and `00502`; no other file exists. -/
def cexFS : FileSys := fun p =>
  if p = { stem := "out", suffix := ".xlsm" } then some ["00501", "00502"]
  else none

/-- A sample FedEx result row with the given key. -/
def mkFxRec (z : String) : FxRec :=
  { zip := z, status := "OK", errorStep := "", errorType := "",
    errorMessage := "", resultText := "Success", mapUrl := "m",
    pageUrl := FEDEX_BASE_URL }

/-- A sample UPS result row with the given key. -/
def mkUpsRec (z : String) : UpsRec :=
  { zip := z, city := "HOLTSVILLE", state := "NY", shipDate := "1/2/2024",
    locationText := "HOLTSVILLE, NY 00501", imageUrl := "", imageFile := "",
    status := "OK", errorStep := "", errorType := "", errorMessage := "",
    rawUrl := BASE_URL }

/-- A page on which no UPS marker fires: empty body, no map image, no
bold text. -/
def blankUpsPage : UpsPage :=
  { bodyText := "", imgSrc := "", boldText := "", errorText := "", pageZip := "" }

/-- A UPS page showing the no-information error text while a fresh map
image source is simultaneously available. -/
def upsBothMarkersPage : UpsPage :=
  { bodyText := "there is no information for zip code 00501",
    imgSrc := "https://www.ups.com/servicemaps/map00501.gif",
    boldText := "", errorText := "error there is no information for zip code 00501",
    pageZip := "" }

/-- A FedEx page on which the PDF success marker and the no-data body
snippet fire simultaneously. -/
def fxBothMarkersPage : FedexPage :=
  { pdfLink := "https://www.fedexfreight.fedex.com/maps/m.pdf", hiddenVal := "",
    errElemText := "", alertText := "", bodyText := "no results" }

/-- A FedEx page on which only the no-data marker fires while the
collapsed body text changed. -/
def fxNoDataChangedPage : FedexPage :=
  { pdfLink := "", hiddenVal := "", errElemText := "", alertText := "",
    bodyText := "no results were found" }

/-- A FedEx page on which no marker fires and the body is empty. -/
def blankFxPage : FedexPage :=
  { pdfLink := "", hiddenVal := "", errElemText := "", alertText := "",
    bodyText := "" }

/-- One UPS attempt-loop iteration whose poller times out: connectivity
available, no stop or pause, no maintenance bump, and a submit whose
samples never show a marker or a change. -/
def upsTimeoutIter : UpsIterEnv :=
  { stopAtLoop := false, pauseStop := false, online := true, maint := false,
    attempt := .polled "" "" blankUpsPage [] {} }

/-! ## Helper lemmas -/

theorem dropWhile_of_forall_neg {α : Type} {p : α → Bool} :
    ∀ {l : List α}, (∀ c ∈ l, p c = false) → l.dropWhile p = l
  | [], _ => rfl
  | a :: l, h => by
    have ha := h a (List.mem_cons_self a l)
    simp [List.dropWhile_cons, ha]

theorem dropWhile_of_forall_pos {α : Type} {p : α → Bool} :
    ∀ {l : List α}, (∀ c ∈ l, p c = true) → l.dropWhile p = []
  | [], _ => rfl
  | a :: l, h => by
    have ha := h a (List.mem_cons_self a l)
    have ih := dropWhile_of_forall_pos (l := l) (fun c hc => h c (List.mem_cons_of_mem a hc))
    simp [List.dropWhile_cons, ha, ih]

theorem isPySpace_eq_false_of_isDigit (c : Char) (h : c.isDigit = true) :
    isPySpace c = false := by
  have h1 : ('0' : Char) ≤ c ∧ c ≤ '9' := by simpa [Char.isDigit] using h
  simp only [isPySpace, Bool.or_eq_false_iff, beq_eq_false_iff_ne, ne_eq]
  refine ⟨⟨⟨⟨⟨?_, ?_⟩, ?_⟩, ?_⟩, ?_⟩, ?_⟩ <;> rintro rfl <;> revert h1 <;> decide

theorem pyStrip_of_forall_nonspace {l : List Char}
    (h : ∀ c ∈ l, isPySpace c = false) : pyStrip l = l := by
  unfold pyStrip
  rw [dropWhile_of_forall_neg h,
    dropWhile_of_forall_neg (fun c hc => h c (List.mem_reverse.mp hc)),
    List.reverse_reverse]

theorem normalizeZipChars_digits_fix {l : List Char}
    (hd : ∀ c ∈ l, c.isDigit = true) (hne : l ≠ []) (hlen : 5 ≤ l.length) :
    normalizeZipChars l = l := by
  have hsp : ∀ c ∈ l, isPySpace c = false :=
    fun c hc => isPySpace_eq_false_of_isDigit c (hd c hc)
  have hmatch : matchesIntDotZeros l = false := by
    unfold matchesIntDotZeros
    rw [dropWhile_of_forall_pos hd]
    simp
  have hfilter : l.filter Char.isDigit = l := List.filter_eq_self.mpr hd
  have h5 : ¬ l.length < 5 := by omega
  unfold normalizeZipChars
  simp [pyStrip_of_forall_nonspace hsp, hmatch, hfilter, hne, h5]

theorem normalizeZipChars_eq_pad (cs : List Char) :
    normalizeZipChars cs =
      if strippedDigitsChars cs = [] then []
      else List.replicate (5 - (strippedDigitsChars cs).length) '0' ++
        strippedDigitsChars cs := by
  unfold normalizeZipChars strippedDigitsChars
  by_cases hs : pyStrip cs = []
  · simp [hs, matchesIntDotZeros]
  · simp only [hs, List.isEmpty_eq_true, if_neg hs]
    by_cases hd : ((if matchesIntDotZeros (pyStrip cs) then
        (pyStrip cs).takeWhile (fun c => c != '.') else pyStrip cs).filter
          Char.isDigit) = []
    · simp [hd]
    · simp only [hd, List.isEmpty_eq_true, if_neg hd]
      by_cases hlen : ((if matchesIntDotZeros (pyStrip cs) then
          (pyStrip cs).takeWhile (fun c => c != '.') else pyStrip cs).filter
            Char.isDigit).length < 5
      · simp [hlen, zfill]
      · have h0 : 5 - ((if matchesIntDotZeros (pyStrip cs) then
            (pyStrip cs).takeWhile (fun c => c != '.') else pyStrip cs).filter
              Char.isDigit).length = 0 := by omega
        simp [hlen, h0]

theorem strippedDigitsChars_all_digit (cs : List Char) :
    ∀ c ∈ strippedDigitsChars cs, c.isDigit = true := by
  intro c hc
  exact List.of_mem_filter hc

theorem normalizeZipChars_idem (cs : List Char) :
    normalizeZipChars (normalizeZipChars cs) = normalizeZipChars cs := by
  rw [normalizeZipChars_eq_pad cs]
  by_cases hd : strippedDigitsChars cs = []
  · simp [hd, normalizeZipChars, pyStrip, matchesIntDotZeros]
  · rw [if_neg hd]
    apply normalizeZipChars_digits_fix
    · intro c hc
      rcases List.mem_append.mp hc with h | h
      · have : c = '0' := List.eq_of_mem_replicate h
        subst this; decide
      · exact strippedDigitsChars_all_digit cs c h
    · simp [hd]
    · have := List.length_pos.mpr hd
      simp only [List.length_append, List.length_replicate]
      omega

/-! ## Claim C2 -/

/-- Claim C2: `normalize_zip` is total and idempotent: for every input
string `x`, `normalize_zip (normalize_zip x) = normalize_zip x`, and in
particular `normalize_zip "00501" = "00501"`,
`normalize_zip "501" = "00501"`, `normalize_zip "0501" = "00501"`,
`normalize_zip "501.0" = "00501"`, and `normalize_zip "" = ""`. -/
theorem c2_normalize_zip_idempotent_total :
    (∀ x : String, normalize_zip (normalize_zip x) = normalize_zip x) ∧
    normalize_zip "00501" = "00501" ∧ normalize_zip "501" = "00501" ∧
    normalize_zip "0501" = "00501" ∧ normalize_zip "501.0" = "00501" ∧
    normalize_zip "" = "" := by
  refine ⟨fun x => ?_, by decide, by decide, by decide, by decide, by decide⟩
  exact congrArg String.mk (normalizeZipChars_idem x.data)

/-! ## Claim C10 -/

/-- Claim C10: for every input, `normalize_zip` returns either the empty
string or a digits-only string that is the surviving digit characters
(after the whitespace strip and the trailing `.0…`-suffix strip)
left-padded with zeros to width 5, hence of length
`max 5 (number of surviving digits)`; the digits are never truncated
(they are a suffix of the result), so `"123456789"` yields a key longer
than the fixed width 5. -/
theorem c10_normalize_zip_shape :
    (∀ x : String,
      (strippedDigits x = [] ∧ normalize_zip x = "") ∨
      ((normalize_zip x).data =
          List.replicate (5 - (strippedDigits x).length) '0' ++ strippedDigits x ∧
        (normalize_zip x).length = max 5 (strippedDigits x).length ∧
        (normalize_zip x).data.all Char.isDigit = true ∧
        strippedDigits x <:+ (normalize_zip x).data)) ∧
    normalize_zip "123456789" = "123456789" := by
  refine ⟨fun x => ?_, by decide⟩
  have hmk : (normalize_zip x).data = normalizeZipChars x.data := rfl
  by_cases hd : strippedDigits x = []
  · left
    refine ⟨hd, ?_⟩
    have hd2 : strippedDigitsChars x.data = [] := hd
    have : normalizeZipChars x.data = [] := by
      rw [normalizeZipChars_eq_pad x.data, if_pos hd2]
    show String.mk (normalizeZipChars x.data) = ""
    rw [this]
  · right
    have hd2 : ¬ strippedDigitsChars x.data = [] := hd
    have hdata : (normalize_zip x).data =
        List.replicate (5 - (strippedDigits x).length) '0' ++ strippedDigits x := by
      rw [hmk, normalizeZipChars_eq_pad x.data, if_neg hd2]
      rfl
    refine ⟨hdata, ?_, ?_, ?_⟩
    · have hlen : (normalize_zip x).length = (normalize_zip x).data.length := rfl
      rw [hlen, hdata]
      simp only [List.length_append, List.length_replicate]
      rw [Nat.max_def]
      split <;> omega
    · rw [hdata]
      rw [List.all_eq_true]
      intro c hc
      rcases List.mem_append.mp hc with h | h
      · have : c = '0' := List.eq_of_mem_replicate h
        subst this; decide
      · exact strippedDigitsChars_all_digit x.data c h
    · exact ⟨List.replicate (5 - (strippedDigits x).length) '0', hdata.symm⟩

/-! ## Deduplication lemmas -/

theorem dropDupKeepLast_countKey {α : Type} (key : α → String) (k : String) :
    ∀ l : List α, countKey key k (dropDupKeepLast key l) = min (countKey key k l) 1
  | [] => by simp [dropDupKeepLast, countKey]
  | r :: rs => by
    have ih := dropDupKeepLast_countKey key k rs
    simp only [countKey] at ih ⊢
    by_cases hany : (rs.any fun x => key x == key r) = true
    · simp only [dropDupKeepLast, if_pos hany, List.countP_cons, ih]
      by_cases hk : key r = k
      · have hpos : 0 < rs.countP (fun x => key x == k) := by
          rcases List.any_eq_true.mp hany with ⟨x, hx, hxr⟩
          refine List.countP_pos_iff.mpr ⟨x, hx, ?_⟩
          rw [beq_iff_eq] at hxr ⊢
          rw [hxr, hk]
        simp only [hk, beq_self_eq_true, if_pos]
        omega
      · have : (key r == k) = false := beq_eq_false_iff_ne.mpr hk
        simp [this]
    · simp only [dropDupKeepLast, if_neg hany, List.countP_cons, ih]
      by_cases hk : key r = k
      · have hzero : rs.countP (fun x => key x == k) = 0 := by
          rw [List.countP_eq_zero]
          intro x hx hxk
          apply hany
          refine List.any_eq_true.mpr ⟨x, hx, ?_⟩
          rw [beq_iff_eq] at hxk ⊢
          rw [hxk, hk]
        simp only [hk, beq_self_eq_true, if_pos, hzero]
        omega
      · have : (key r == k) = false := beq_eq_false_iff_ne.mpr hk
        simp [this]

theorem dropDupKeepLast_find? {α : Type} (key : α → String) (k : String) :
    ∀ l : List α, (dropDupKeepLast key l).find? (fun x => key x == k)
      = l.reverse.find? (fun x => key x == k)
  | [] => rfl
  | r :: rs => by
    have ih := dropDupKeepLast_find? key k rs
    rw [List.reverse_cons, List.find?_append]
    by_cases hany : (rs.any fun x => key x == key r) = true
    · simp only [dropDupKeepLast, if_pos hany, ih]
      cases h : rs.reverse.find? (fun x => key x == k) with
      | some a => simp [Option.or_some]
      | none =>
        simp only [Option.none_or]
        have hall := List.find?_eq_none.mp h
        have : ¬ (key r == k) = true := by
          intro hrk
          rcases List.any_eq_true.mp hany with ⟨x, hx, hxr⟩
          apply hall x (List.mem_reverse.mpr hx)
          rw [beq_iff_eq] at hrk hxr ⊢
          rw [hxr, hrk]
        simp [List.find?, this]
    · simp only [dropDupKeepLast, if_neg hany]
      by_cases hk : (key r == k) = true
      · have hnone : rs.reverse.find? (fun x => key x == k) = none := by
          rw [List.find?_eq_none]
          intro x hx hxk
          apply hany
          refine List.any_eq_true.mpr ⟨x, List.mem_reverse.mp hx, ?_⟩
          rw [beq_iff_eq] at hxk hk ⊢
          rw [hxk, hk]
        rw [hnone, Option.none_or]
        simp [List.find?, hk]
      · have hkf : (key r == k) = false := by
          cases h2 : (key r == k) with
          | true => exact absurd h2 hk
          | false => rfl
        rw [List.find?_cons_of_neg _ (by simp [hkf]), ih]
        cases h : rs.reverse.find? (fun x => key x == k) with
        | some a => simp [Option.or_some]
        | none => simp only [Option.none_or]; simp [List.find?, hkf]

/-! ## Claim C1 -/

/-- Counterexample to claim C1 as stated: the FedEx `write_output_file`
merely concatenates the pre-existing rows with the new result rows and
never deduplicates, so a key present both in the pre-existing table and
in the new rows survives twice in the persisted merged output —
contradicting "at most one row per key" for every pre-existing table
and new-row list. -/
theorem c1_counterexample :
    countKey (fun r => r.zip) "00501"
        (write_output_file_fedex [mkFxRec "00501"] [mkFxRec "00501"]) = 2 ∧
    ¬ countKey (fun r => r.zip) "00501"
        (write_output_file_fedex [mkFxRec "00501"] [mkFxRec "00501"]) ≤ 1 := by
  decide

/-- Claim C1 (amended): the UPS `write_output_file` concatenates and
deduplicates by the ZIP key keeping the last-written row: every key
occurs `min occurrences 1` times (so at most once, with the union of
keys preserved), and the surviving row for a key is the last-written
row with that key.  The FedEx `write_output_file` concatenates without
deduplicating: key multiplicities add, so its merged output has each
key at most once exactly when the combined key list is duplicate-free —
in particular two runs over disjoint duplicate-free key sets yield a
merged file containing the union of the keys, each exactly once. -/
theorem c1_merge_dedup_amended :
    (∀ (e r : List UpsRec) (k : String),
      countKey (fun x => x.zip) k (write_output_file_ups e r) =
        min (countKey (fun x => x.zip) k (e ++ r)) 1) ∧
    (∀ (e r : List UpsRec) (k : String),
      (write_output_file_ups e r).find? (fun x => x.zip == k) =
        (e ++ r).reverse.find? (fun x => x.zip == k)) ∧
    (∀ (e r : List FxRec) (k : String),
      countKey (fun x => x.zip) k (write_output_file_fedex e r) =
        countKey (fun x => x.zip) k e + countKey (fun x => x.zip) k r) ∧
    (∀ (e r : List FxRec), ((e ++ r).map (fun x => x.zip)).Nodup →
      ∀ k : String,
        countKey (fun x => x.zip) k (write_output_file_fedex e r) ≤ 1 ∧
        (k ∈ (e ++ r).map (fun x => x.zip) →
          countKey (fun x => x.zip) k (write_output_file_fedex e r) = 1)) := by
  refine ⟨?_, ?_, ?_, ?_⟩
  · intro e r k
    exact dropDupKeepLast_countKey _ k (e ++ r)
  · intro e r k
    exact dropDupKeepLast_find? _ k (e ++ r)
  · intro e r k
    simp [write_output_file_fedex, countKey]
  · intro e r hnd k
    have hcnt : countKey (fun x => x.zip) k (e ++ r) =
        ((e ++ r).map (fun x => x.zip)).count k := by
      rw [List.count_eq_countP, List.countP_map]
      rfl
    constructor
    · show countKey (fun x => x.zip) k (e ++ r) ≤ 1
      rw [hcnt]
      exact List.nodup_iff_count_le_one.mp hnd k
    · intro hmem
      show countKey (fun x => x.zip) k (e ++ r) = 1
      rw [hcnt]
      exact List.count_eq_one_of_mem hnd hmem

/-- Witness for C1 (amended), at concrete tables: the UPS merge formula
at a duplicated key, and the FedEx disjoint-runs scenario yielding the
key exactly once. -/
theorem c1_witness :
    countKey (fun x => x.zip) "00501"
        (write_output_file_ups [mkUpsRec "00501"] [mkUpsRec "00501"]) =
      min (countKey (fun x => x.zip) "00501"
        ([mkUpsRec "00501"] ++ [mkUpsRec "00501"])) 1 ∧
    countKey (fun x => x.zip) "00501"
        (write_output_file_fedex [mkFxRec "00501"] [mkFxRec "00502"]) = 1 :=
  ⟨c1_merge_dedup_amended.1 [mkUpsRec "00501"] [mkUpsRec "00501"] "00501",
   (c1_merge_dedup_amended.2.2.2 [mkFxRec "00501"] [mkFxRec "00502"]
      (by decide) "00501").2 (by decide)⟩

/-! ## Poller lemmas -/

theorem ups_poll_loop_status (prevSrc prevTxt : String) :
    ∀ pages : List UpsPage,
      (ups_poll_loop prevSrc prevTxt pages).status = "OK" ∨
      (ups_poll_loop prevSrc prevTxt pages).status = "NO_DATA" ∨
      (ups_poll_loop prevSrc prevTxt pages).status = "TIMEOUT"
  | [] => Or.inr (Or.inr rfl)
  | p :: rest => by
    simp only [ups_poll_loop]
    by_cases h1 : detect_no_info p
    · rw [if_pos h1]
      exact Or.inr (Or.inl rfl)
    · rw [if_neg h1]
      by_cases h2 : ups_sample_change prevSrc prevTxt p
      · rw [if_pos h2]
        exact Or.inl rfl
      · rw [if_neg h2]
        exact ups_poll_loop_status prevSrc prevTxt rest

theorem fx_quick_status (p : FedexPage) (r : FxPoll) (h : fx_quick p = some r) :
    r.status = "OK" ∨ r.status = "NO_DATA" := by
  unfold fx_quick at h
  by_cases h1 : p.pdfLink != ""
  · rw [if_pos h1] at h
    simp only [Option.some.injEq] at h
    subst h
    exact Or.inl rfl
  · rw [if_neg h1] at h
    by_cases h2 : p.hiddenVal != ""
    · rw [if_pos h2] at h
      simp only [Option.some.injEq] at h
      subst h
      exact Or.inl rfl
    · rw [if_neg h2] at h
      by_cases h3 : detect_fedex_no_data p
      · rw [if_pos h3] at h
        simp only [Option.some.injEq] at h
        subst h
        exact Or.inr rfl
      · rw [if_neg h3] at h
        exact absurd h (by simp)

theorem fx_loop_status (prevMarker : String) :
    ∀ pages : List FedexPage,
      (fx_loop prevMarker pages).status = "OK" ∨
      (fx_loop prevMarker pages).status = "NO_DATA" ∨
      (fx_loop prevMarker pages).status = "TIMEOUT"
  | [] => Or.inr (Or.inr rfl)
  | p :: rest => by
    simp only [fx_loop]
    cases h : fx_quick p with
    | some r =>
      rcases fx_quick_status p r h with h2 | h2
      · exact Or.inl h2
      · exact Or.inr (Or.inl h2)
    | none =>
      by_cases h2 : (collapse p.bodyText != "" && collapse p.bodyText != prevMarker)
      · rw [if_pos h2]
        exact Or.inl rfl
      · rw [if_neg h2]
        exact fx_loop_status prevMarker rest

theorem wait_fedex_status (prevMarker : String) (entry : FedexPage)
    (pages : List FedexPage) :
    (wait_fedex_result_or_terminal prevMarker entry pages).status = "OK" ∨
    (wait_fedex_result_or_terminal prevMarker entry pages).status = "NO_DATA" ∨
    (wait_fedex_result_or_terminal prevMarker entry pages).status = "TIMEOUT" := by
  unfold wait_fedex_result_or_terminal
  cases h : fx_quick entry with
  | some r =>
    rcases fx_quick_status entry r h with h2 | h2
    · exact Or.inl h2
    · exact Or.inr (Or.inl h2)
  | none => exact fx_loop_status prevMarker pages

/-! ## Claim C5 -/

/-- Counterexample to claim C5 as stated: on a UPS page where the
explicit success marker fires (a fresh map-image artifact reference is
available, so `ups_sample_change` holds) while the no-data text is also
present, the UPS poller returns `NO_DATA` — the failure marker is
checked first, not the success marker, contradicting the claimed fixed
priority order. -/
theorem c5_counterexample :
    ups_sample_change "" "" upsBothMarkersPage = true ∧
    (wait_for_result_or_terminal_state "" "" upsBothMarkersPage
        [upsBothMarkersPage]).status = "NO_DATA" := by
  constructor
  · decide
  · decide

/-- Claim C5 (amended): for every sequence of sampled page states, the
FedEx poller checks its markers in the fixed priority order — explicit
success markers (PDF map link, hidden map URL) first, then the explicit
failure/empty-result marker, then content change treated as implicit
success; the UPS poller checks the explicit failure/empty-result marker
first on every sample and treats an artifact/content change as success
only when the failure marker is absent.  In both, a deadline with no
marker yields `TIMEOUT`, so each poller always returns one of `OK`,
`NO_DATA`, `TIMEOUT`. -/
theorem c5_poller_amended :
    (∀ (pS pT : String) (entry : UpsPage) (pages : List UpsPage),
      (wait_for_result_or_terminal_state pS pT entry pages).status = "OK" ∨
      (wait_for_result_or_terminal_state pS pT entry pages).status = "NO_DATA" ∨
      (wait_for_result_or_terminal_state pS pT entry pages).status = "TIMEOUT") ∧
    (∀ (pM : String) (entry : FedexPage) (pages : List FedexPage),
      (wait_fedex_result_or_terminal pM entry pages).status = "OK" ∨
      (wait_fedex_result_or_terminal pM entry pages).status = "NO_DATA" ∨
      (wait_fedex_result_or_terminal pM entry pages).status = "TIMEOUT") ∧
    (∀ (pM : String) (entry : FedexPage) (pages : List FedexPage),
      (entry.pdfLink ≠ "" ∨ entry.hiddenVal ≠ "") →
      (wait_fedex_result_or_terminal pM entry pages).status = "OK") ∧
    (∀ (pM : String) (entry : FedexPage) (pages : List FedexPage),
      entry.pdfLink = "" → entry.hiddenVal = "" →
      detect_fedex_no_data entry = true →
      (wait_fedex_result_or_terminal pM entry pages).status = "NO_DATA") ∧
    (∀ (pS pT : String) (entry : UpsPage) (pages : List UpsPage),
      detect_no_info entry = true →
      (wait_for_result_or_terminal_state pS pT entry pages).status = "NO_DATA") ∧
    (∀ (pS pT : String) (p : UpsPage) (rest : List UpsPage),
      detect_no_info p = false → ups_sample_change pS pT p = true →
      (ups_poll_loop pS pT (p :: rest)).status = "OK") ∧
    (∀ (pS pT : String) (entry : UpsPage), detect_no_info entry = false →
      (wait_for_result_or_terminal_state pS pT entry []).status = "TIMEOUT") ∧
    (∀ (pM : String) (entry : FedexPage), fx_quick entry = none →
      (wait_fedex_result_or_terminal pM entry []).status = "TIMEOUT") := by
  refine ⟨?_, wait_fedex_status, ?_, ?_, ?_, ?_, ?_, ?_⟩
  · intro pS pT entry pages
    unfold wait_for_result_or_terminal_state
    by_cases h : detect_no_info entry
    · rw [if_pos h]
      exact Or.inr (Or.inl rfl)
    · rw [if_neg h]
      exact ups_poll_loop_status pS pT pages
  · intro pM entry pages h
    unfold wait_fedex_result_or_terminal fx_quick
    rcases h with h | h
    · rw [if_pos (bne_iff_ne.mpr h)]
    · by_cases h1 : entry.pdfLink != ""
      · rw [if_pos h1]
      · rw [if_neg h1, if_pos (bne_iff_ne.mpr h)]
  · intro pM entry pages h1 h2 h3
    unfold wait_fedex_result_or_terminal fx_quick
    rw [if_neg (by simp [h1]), if_neg (by simp [h2]), if_pos h3]
  · intro pS pT entry pages h
    unfold wait_for_result_or_terminal_state
    rw [if_pos h]
  · intro pS pT p rest h1 h2
    simp only [ups_poll_loop]
    rw [if_neg (by simp [h1]), if_pos h2]
  · intro pS pT entry h
    unfold wait_for_result_or_terminal_state
    rw [if_neg (by simp [h])]
    rfl
  · intro pM entry h
    unfold wait_fedex_result_or_terminal
    rw [h]
    rfl

/-- Witness for C5 (amended), at concrete pages: the FedEx
success-before-failure priority, the FedEx failure-before-change
priority, the UPS failure-first priority, and both timeout defaults. -/
theorem c5_witness :
    (wait_fedex_result_or_terminal "" fxBothMarkersPage []).status = "OK" ∧
    (wait_fedex_result_or_terminal "base" fxNoDataChangedPage
        [fxNoDataChangedPage]).status = "NO_DATA" ∧
    (wait_for_result_or_terminal_state "" "" upsBothMarkersPage []).status =
      "NO_DATA" ∧
    (ups_poll_loop "" ""
        [{ bodyText := "", imgSrc := "https://www.ups.com/servicemaps/map1.gif",
           boldText := "", errorText := "", pageZip := "" }]).status = "OK" ∧
    (wait_for_result_or_terminal_state "" "" blankUpsPage []).status = "TIMEOUT" ∧
    (wait_fedex_result_or_terminal "" blankFxPage []).status = "TIMEOUT" :=
  ⟨c5_poller_amended.2.2.1 "" fxBothMarkersPage [] (Or.inl (by decide)),
   c5_poller_amended.2.2.2.1 "base" fxNoDataChangedPage [fxNoDataChangedPage]
     (by decide) (by decide) (by decide),
   c5_poller_amended.2.2.2.2.1 "" "" upsBothMarkersPage [] (by decide),
   c5_poller_amended.2.2.2.2.2.1 "" ""
     { bodyText := "", imgSrc := "https://www.ups.com/servicemaps/map1.gif",
       boldText := "", errorText := "", pageZip := "" } [] (by decide) (by decide),
   c5_poller_amended.2.2.2.2.2.2.1 "" "" blankUpsPage (by decide),
   c5_poller_amended.2.2.2.2.2.2.2 "" blankFxPage (by decide)⟩

/-! ## Attempt-loop lemmas -/

theorem ups_loop_done : ∀ (l : List UpsIterEnv) (st : UpsLoopState),
    MAX_RETRIES ≤ st.attempts → ups_loop l st = st
  | [], _, _ => rfl
  | e :: _, st, h => by
    have hlt : ¬ (st.attempts < MAX_RETRIES ∧ e.stopAtLoop = false) := by
      rintro ⟨h1, -⟩
      omega
    simp only [ups_loop, if_neg hlt]

/-! ## Claim C3 -/

/-- Claim C3: for a key whose poller result is `TIMEOUT` on every
attempt (connectivity available, no stop or pause, no maintenance
bump — the `upsTimeoutIter` environment), `process_zip` performs
exactly `MAX_RETRIES` attempts, invalidating the session
(`bump_session_version`) after each one, and produces a `SKIPPED`
record whose error kind is `RESULT_TIMEOUT`.  Stated for every
environment offering at least `MAX_RETRIES = 3` such iterations: only
the first three are consumed. -/
theorem c3_all_timeouts_skipped :
    ∀ (n : Nat) (zipRaw : String),
      (ups_loop (List.replicate (n + 3) upsTimeoutIter) upsInitState).attempts =
        MAX_RETRIES ∧
      (ups_loop (List.replicate (n + 3) upsTimeoutIter) upsInitState).bumps =
        MAX_RETRIES ∧
      (process_zip_ups zipRaw (List.replicate (n + 3) upsTimeoutIter)).status =
        "SKIPPED" ∧
      (process_zip_ups zipRaw (List.replicate (n + 3) upsTimeoutIter)).errorType =
        "RESULT_TIMEOUT" ∧
      (process_zip_ups zipRaw (List.replicate (n + 3) upsTimeoutIter)).errorStep =
        "WAIT_RESULT" := by
  intro n zipRaw
  have hloop : ups_loop (List.replicate (n + 3) upsTimeoutIter) upsInitState =
      { attempts := 3, bumps := 3, offlineSleeps := 0, status := "SKIPPED",
        errorStep := "WAIT_RESULT", errorType := "RESULT_TIMEOUT",
        errorMessage := "Timed out waiting for results OR error state",
        parsed := {}, raised := none } :=
    ups_loop_done (List.replicate n upsTimeoutIter) _ (by decide)
  refine ⟨?_, ?_, ?_, ?_, ?_⟩
  · rw [hloop]; decide
  · rw [hloop]; decide
  · simp only [process_zip_ups, hloop]; decide
  · simp only [process_zip_ups, hloop]; decide
  · simp only [process_zip_ups, hloop]; decide

theorem ups_loop_attempts_le :
    ∀ (envs : List UpsIterEnv) (st : UpsLoopState),
      (ups_loop envs st).attempts ≤
        st.attempts + envs.countP (fun e => e.online)
  | [], st => by simp [ups_loop]
  | e :: rest, st => by
    have ih := fun st2 => ups_loop_attempts_le rest st2
    simp only [ups_loop]
    by_cases hc : st.attempts < MAX_RETRIES ∧ e.stopAtLoop = false
    · rw [if_pos hc]
      by_cases hp : e.pauseStop
      · rw [if_pos hp]
        exact Nat.le_add_right _ _
      · rw [if_neg hp]
        by_cases ho : e.online = false
        · rw [if_pos ho]
          refine le_trans (ih _) ?_
          simp [List.countP_cons, ho]
        · rw [if_neg ho]
          have ho2 : e.online = true := by
            revert ho
            cases e.online <;> simp
          repeat' split
          all_goals first
            | (refine le_trans (ih _) ?_
               simp [List.countP_cons, ho2]
               omega)
            | (simp [List.countP_cons, ho2]
               omega)
            | simp [List.countP_cons, ho2]
    · rw [if_neg hc]
      exact Nat.le_add_right _ _

/-! ## Claim C7 -/

/-- Claim C7: an attempt-loop iteration in which the connectivity check
fails sleeps the 120-second cooldown (`UNRESPONSIVE_PAUSE`), records the
`OFFLINE`/`NO_INTERNET` error and retries without touching the attempt
counter; and globally the attempt counter grows by at most the number of
iterations whose connectivity check passed, so connectivity failures
never count against the `MAX_RETRIES` budget — the counter is
incremented only after the connectivity check passes. -/
theorem c7_offline_iterations_free :
    UNRESPONSIVE_PAUSE = 120 ∧
    (∀ (maint : Bool) (att : UpsAttempt) (rest : List UpsIterEnv)
       (st : UpsLoopState), st.attempts < MAX_RETRIES →
      ups_loop ({ stopAtLoop := false, pauseStop := false, online := false,
                  maint := maint, attempt := att } :: rest) st =
        ups_loop rest
          { st with errorStep := "OFFLINE", errorType := "NO_INTERNET",
                    errorMessage := "Internet not available; paused and retrying.",
                    offlineSleeps := st.offlineSleeps + UNRESPONSIVE_PAUSE }) ∧
    (∀ (envs : List UpsIterEnv) (st : UpsLoopState),
      (ups_loop envs st).attempts ≤
        st.attempts + envs.countP (fun e => e.online)) := by
  refine ⟨rfl, ?_, ups_loop_attempts_le⟩
  intro maint att rest st h
  simp only [ups_loop]
  rw [if_pos ⟨h, trivial⟩]
  rfl

/-- Witness for C7, at a concrete offline iteration and a concrete
environment. -/
theorem c7_witness :
    ups_loop ({ stopAtLoop := false, pauseStop := false, online := false,
                maint := false, attempt := .loadFail } :: []) upsInitState =
      ups_loop []
        { upsInitState with
            errorStep := "OFFLINE"
            errorType := "NO_INTERNET"
            errorMessage := "Internet not available; paused and retrying."
            offlineSleeps := upsInitState.offlineSleeps + UNRESPONSIVE_PAUSE } ∧
    (ups_loop [upsTimeoutIter] upsInitState).attempts ≤
      upsInitState.attempts + [upsTimeoutIter].countP (fun e => e.online) :=
  ⟨c7_offline_iterations_free.2.1 false .loadFail [] upsInitState (by decide),
   c7_offline_iterations_free.2.2 [upsTimeoutIter] upsInitState⟩

/-! ## Stripping and NO_DATA-message lemmas -/

theorem head?_dropWhile_not {α : Type} (p : α → Bool) :
    ∀ (l : List α) (a : α), (l.dropWhile p).head? = some a → p a = false
  | [], a, h => by simp [List.dropWhile] at h
  | b :: t, a, h => by
    by_cases hb : p b
    · rw [List.dropWhile_cons, if_pos hb] at h
      exact head?_dropWhile_not p t a h
    · rw [List.dropWhile_cons, if_neg hb] at h
      simp only [List.head?_cons, Option.some.injEq] at h
      subst h
      exact Bool.eq_false_iff.mpr hb

theorem pyStrip_ne_nil_nonspace {l : List Char} (h : pyStrip l ≠ []) :
    ∃ c ∈ pyStrip l, isPySpace c = false := by
  have h2 : (l.dropWhile isPySpace).reverse.dropWhile isPySpace ≠ [] := by
    intro he
    apply h
    unfold pyStrip
    rw [he]
    rfl
  obtain ⟨a, t, ht⟩ := List.exists_cons_of_ne_nil h2
  have ha : isPySpace a = false :=
    head?_dropWhile_not _ _ a (by rw [ht]; rfl)
  refine ⟨a, ?_, ha⟩
  unfold pyStrip
  rw [List.mem_reverse, ht]
  exact List.mem_cons_self _ _

theorem forall_space_of_pyStrip_eq_nil {l : List Char} (h : pyStrip l = []) :
    ∀ c ∈ l, isPySpace c = true := by
  unfold pyStrip at h
  rw [List.reverse_eq_nil_iff] at h
  intro c hc
  have hsplit := List.takeWhile_append_dropWhile isPySpace (l := l)
  rw [← hsplit] at hc
  rcases List.mem_append.mp hc with h1 | h1
  · exact List.mem_takeWhile_imp h1
  · have h2 : ∀ x ∈ (l.dropWhile isPySpace).reverse, isPySpace x = true :=
      List.dropWhile_eq_nil_iff.mp h
    exact h2 c (List.mem_reverse.mpr h1)

theorem pyStrip_ne_nil_of_nonspace {l : List Char} {c : Char} (hc : c ∈ l)
    (hns : isPySpace c = false) : pyStrip l ≠ [] := by
  intro h
  have := forall_space_of_pyStrip_eq_nil h c hc
  rw [this] at hns
  exact Bool.noConfusion hns

theorem mk_ne_empty_of_ne_nil {l : List Char} (h : l ≠ []) :
    String.mk l ≠ "" := by
  intro he
  exact h (congrArg String.data he)

theorem take250_pyStrip_ne_nil {l : List Char} (h : pyStrip l ≠ []) :
    (pyStrip l).take 250 ≠ [] := by
  intro he
  rcases List.take_eq_nil_iff.mp he with h2 | h2
  · exact absurd h2 (by decide)
  · exact h h2

theorem noDataMessage_error_ne {a b : String} :
    (make_error "WAIT_RESULT" "NO_DATA" (noDataMessage a b)).2.2 ≠ "" := by
  show takeChars 250 (pyStripStr (noDataMessage a b)) ≠ ""
  have key : pyStrip (noDataMessage a b).data ≠ [] := by
    unfold noDataMessage
    by_cases hfin : (if (b != "" && !isSubstr b (pyStripStr a)) = true then
        if (pyStripStr a != "") = true then
          pyStripStr a ++ " (page_zip_detected=" ++ b ++ ")"
        else "page_zip_detected=" ++ b
      else pyStripStr a) = ""
    · rw [if_pos hfin]
      decide
    · rw [if_neg hfin]
      by_cases h1 : (b != "" && !isSubstr b (pyStripStr a)) = true
      · rw [if_pos h1] at hfin ⊢
        by_cases h2 : (pyStripStr a != "") = true
        · rw [if_pos h2] at hfin ⊢
          refine pyStrip_ne_nil_of_nonspace (c := '(') ?_ (by decide)
          simp only [String.data_append]
          refine List.mem_append.mpr (Or.inl (List.mem_append.mpr (Or.inl ?_)))
          refine List.mem_append.mpr (Or.inr ?_)
          decide
        · rw [if_neg h2] at hfin ⊢
          refine pyStrip_ne_nil_of_nonspace (c := 'p') ?_ (by decide)
          simp only [String.data_append]
          refine List.mem_append.mpr (Or.inl ?_)
          decide
      · rw [if_neg h1] at hfin ⊢
        have hne : pyStrip a.data ≠ [] := by
          intro he
          apply hfin
          show String.mk (pyStrip a.data) = ""
          rw [he]
        obtain ⟨c, hc, hcs⟩ := pyStrip_ne_nil_nonspace hne
        exact pyStrip_ne_nil_of_nonspace hc hcs
  exact mk_ne_empty_of_ne_nil (take250_pyStrip_ne_nil key)

theorem ups_loop_nodata_step (pS pT : String) (entry : UpsPage)
    (pages : List UpsPage) (ph : Parsed) (rest : List UpsIterEnv)
    (st : UpsLoopState) (h : st.attempts < MAX_RETRIES)
    (hw : (wait_for_result_or_terminal_state pS pT entry pages).status =
      "NO_DATA") :
    ups_loop ({ stopAtLoop := false, pauseStop := false, online := true,
                maint := false,
                attempt := .polled pS pT entry pages ph } :: rest) st =
      { st with
          attempts := st.attempts + 1
          status := "SKIPPED"
          errorStep := "WAIT_RESULT"
          errorType := "NO_DATA"
          errorMessage := (make_error "WAIT_RESULT" "NO_DATA"
            (noDataMessage
              (wait_for_result_or_terminal_state pS pT entry pages).errorText
              (wait_for_result_or_terminal_state pS pT entry pages).pageZip)).2.2
          parsed := {} } := by
  simp only [ups_loop]
  rw [if_pos ⟨h, trivial⟩]
  rw [if_pos hw]
  rfl

/-! ## Claim C6 -/

/-- Counterexample to claim C6 as stated: a UPS key whose first attempt
yields a `NoData` outcome is recorded with status `SKIPPED` (the error
kind field, not the status, carries `NO_DATA`) — `ups_priority.py` line
982 sets `status_val = "SKIPPED"` in the NO_DATA branch — contradicting
"the key's persisted Record has status NO_DATA". -/
theorem c6_counterexample :
    (process_zip_ups "00501"
        [{ stopAtLoop := false, pauseStop := false, online := true,
           maint := false,
           attempt := .polled "" "" upsBothMarkersPage [] {} }]).status =
      "SKIPPED" ∧
    (process_zip_ups "00501"
        [{ stopAtLoop := false, pauseStop := false, online := true,
           maint := false,
           attempt := .polled "" "" upsBothMarkersPage [] {} }]).status ≠
      "NO_DATA" ∧
    (process_zip_ups "00501"
        [{ stopAtLoop := false, pauseStop := false, online := true,
           maint := false,
           attempt := .polled "" "" upsBothMarkersPage [] {} }]).errorType =
      "NO_DATA" := by
  refine ⟨by decide, by decide, by decide⟩

/-- Claim C6 (amended): a `NoData` poller outcome is terminal
immediately in both scripts — the attempt loop breaks at once, ignoring
any remaining iterations, with exactly one more attempt counted.  The
FedEx record then has status `NO_DATA`; the UPS record instead has
status `SKIPPED` with error kind (`ERROR_TYPE`) `NO_DATA`. -/
theorem c6_nodata_terminal_amended :
    (∀ (pS pT : String) (entry : UpsPage) (pages : List UpsPage) (ph : Parsed)
       (rest : List UpsIterEnv) (st : UpsLoopState),
      st.attempts < MAX_RETRIES →
      (wait_for_result_or_terminal_state pS pT entry pages).status = "NO_DATA" →
      ups_loop ({ stopAtLoop := false, pauseStop := false, online := true,
                  maint := false,
                  attempt := .polled pS pT entry pages ph } :: rest) st =
        { st with
            attempts := st.attempts + 1
            status := "SKIPPED"
            errorStep := "WAIT_RESULT"
            errorType := "NO_DATA"
            errorMessage := (make_error "WAIT_RESULT" "NO_DATA"
              (noDataMessage
                (wait_for_result_or_terminal_state pS pT entry pages).errorText
                (wait_for_result_or_terminal_state pS pT entry pages).pageZip)).2.2
            parsed := {} }) ∧
    (∀ (zipRaw pS pT : String) (entry : UpsPage) (pages : List UpsPage)
       (ph : Parsed) (rest : List UpsIterEnv),
      (wait_for_result_or_terminal_state pS pT entry pages).status = "NO_DATA" →
      (process_zip_ups zipRaw
          ({ stopAtLoop := false, pauseStop := false, online := true,
             maint := false,
             attempt := .polled pS pT entry pages ph } :: rest)).status =
        "SKIPPED" ∧
      (process_zip_ups zipRaw
          ({ stopAtLoop := false, pauseStop := false, online := true,
             maint := false,
             attempt := .polled pS pT entry pages ph } :: rest)).errorType =
        "NO_DATA" ∧
      (process_zip_ups zipRaw
          ({ stopAtLoop := false, pauseStop := false, online := true,
             maint := false,
             attempt := .polled pS pT entry pages ph } :: rest)).errorStep =
        "WAIT_RESULT") ∧
    (∀ (key pm : String) (entry : FedexPage) (pages : List FedexPage)
       (rest : List FxIterEnv),
      (wait_fedex_result_or_terminal pm entry pages).status = "NO_DATA" →
      process_zip_fedex false false key
          ({ stopAtLoop := false, attempt := .polled pm entry pages } :: rest) =
        some { zip := normalize_zip key, status := "NO_DATA",
               errorStep := "WAIT_RESULT", errorType := "NO_DATA",
               errorMessage := "No transit map available for this ZIP code",
               resultText := "No results found", mapUrl := "",
               pageUrl := FEDEX_BASE_URL }) := by
  refine ⟨ups_loop_nodata_step, ?_, ?_⟩
  · intro zipRaw pS pT entry pages ph rest hw
    have hstep := ups_loop_nodata_step pS pT entry pages ph rest upsInitState
      (by decide) hw
    simp only [process_zip_ups]
    rw [hstep]
    simp only [upsInitState]
    rw [if_pos (⟨by decide, by decide⟩ :
          ("SKIPPED" : String) ≠ "OK" ∧ ("SKIPPED" : String) ≠ "OK_WITH_IMAGE_ERROR"),
        if_neg noDataMessage_error_ne]
    exact ⟨rfl, rfl, rfl⟩
  · intro key pm entry pages rest hw
    simp [process_zip_fedex, fx_loop_run, fxInitState, hw]

/-- Witness for C6 (amended), at a concrete NO_DATA page for each
script. -/
theorem c6_witness :
    ups_loop [{ stopAtLoop := false, pauseStop := false, online := true,
                maint := false,
                attempt := .polled "" "" upsBothMarkersPage [] {} }]
        upsInitState =
      { upsInitState with
          attempts := upsInitState.attempts + 1
          status := "SKIPPED"
          errorStep := "WAIT_RESULT"
          errorType := "NO_DATA"
          errorMessage := (make_error "WAIT_RESULT" "NO_DATA"
            (noDataMessage
              (wait_for_result_or_terminal_state "" "" upsBothMarkersPage
                []).errorText
              (wait_for_result_or_terminal_state "" "" upsBothMarkersPage
                []).pageZip)).2.2
          parsed := {} } ∧
    (process_zip_ups "00501"
        [{ stopAtLoop := false, pauseStop := false, online := true,
           maint := false,
           attempt := .polled "" "" upsBothMarkersPage [] {} }]).status =
      "SKIPPED" ∧
    process_zip_fedex false false "00501"
        [{ stopAtLoop := false, attempt := .polled "" fxNoDataChangedPage [] }] =
      some { zip := normalize_zip "00501", status := "NO_DATA",
             errorStep := "WAIT_RESULT", errorType := "NO_DATA",
             errorMessage := "No transit map available for this ZIP code",
             resultText := "No results found", mapUrl := "",
             pageUrl := FEDEX_BASE_URL } :=
  ⟨c6_nodata_terminal_amended.1 "" "" upsBothMarkersPage [] {} [] upsInitState
     (by decide) (by decide),
   (c6_nodata_terminal_amended.2.1 "00501" "" "" upsBothMarkersPage [] {} []
     (by decide)).1,
   c6_nodata_terminal_amended.2.2 "00501" "" fxNoDataChangedPage [] []
     (by decide)⟩

/-! ## Claim C8 -/

/-- Counterexample to claim C8 as stated: a FedEx key dispatched after
the stop signal is asserted returns from `process_zip` immediately
(`fedex_scraper.py` lines 512-513) and appends no Record row at all;
likewise a FedEx key whose pre-loop driver construction raises (the
`try` at line 527 has no `except`, only a `finally`) appends no row —
both contradicting "exactly one Record row is appended regardless of
outcome (…, stop, or an unexpected exception in that key's
processing)". -/
theorem c8_counterexample :
    process_zip_fedex true false "00501" [] = none ∧
    process_zip_fedex false true "00501" [] = none ∧
    fedex_batch_rows [(true, false, "00501", []), (false, true, "00501", [])] =
      [] := by
  exact ⟨rfl, rfl, rfl⟩

/-- Claim C8 (amended): in the UPS script every dispatched key appends
exactly one Record row whatever its environment does — the batch row
list has one row per key, each carrying its normalized key, an
unexpected exception yields that key's `ERROR` row without touching any
other key's processing, and the batch is a per-key map, so one key's
failure never aborts it.  In the FedEx script a key appends exactly one
row only when the stop signal is not yet set when its processing starts
and the pre-loop driver construction succeeds; if stop is already set,
or the selenium imports / `build_driver()` / `set_page_load_timeout`
raise (that exception escapes `process_zip`, whose outer `try` has only
a `finally`, and is dropped by the executor), the key appends no row. -/
theorem c8_one_row_per_key_amended :
    (∀ entries : List (String × List UpsIterEnv),
      (ups_batch_rows entries).length = entries.length) ∧
    (∀ (zipRaw : String) (envs : List UpsIterEnv),
      (process_zip_ups zipRaw envs).zip = normalize_zip (pyStripStr zipRaw)) ∧
    (∀ (pre post : List (String × List UpsIterEnv)) (key : String)
       (envs : List UpsIterEnv),
      ups_batch_rows (pre ++ (key, envs) :: post) =
        ups_batch_rows pre ++ process_zip_ups key envs :: ups_batch_rows post) ∧
    (∀ (zipRaw m : String) (rest : List UpsIterEnv),
      (process_zip_ups zipRaw
          ({ stopAtLoop := false, pauseStop := false, online := true,
             maint := false, attempt := .raised m } :: rest)).status =
        "ERROR") ∧
    (∀ (key : String) (envs : List FxIterEnv),
      (process_zip_fedex false false key envs).isSome = true) ∧
    (∀ (key : String) (envs : List FxIterEnv) (driverFail : Bool),
      process_zip_fedex true driverFail key envs = none) ∧
    (∀ (key : String) (envs : List FxIterEnv),
      process_zip_fedex false true key envs = none) := by
  refine ⟨?_, ?_, ?_, ?_, ?_, ?_, ?_⟩
  · intro entries
    simp [ups_batch_rows]
  · intro zipRaw envs
    rfl
  · intro pre post key envs
    simp [ups_batch_rows]
  · intro zipRaw m rest
    rfl
  · intro key envs
    rfl
  · intro key envs driverFail
    rfl
  · intro key envs
    rfl

/-! ## Claim C9 -/

/-- Counterexample to claim C9 as stated: a UPS key whose processing
starts only after the stop signal is asserted still appends a Record
row (status `SKIPPED`, error kind `UNKNOWN`) — queued futures are not
cancelled by the executor shutdown and `process_zip` always appends a
row — so undispatched keys do leave a trace in the output. -/
theorem c9_counterexample :
    ups_batch_rows [("00501",
        [{ stopAtLoop := true, pauseStop := false, online := true,
           maint := false, attempt := .loadFail }])] ≠ [] ∧
    (process_zip_ups "00501"
        [{ stopAtLoop := true, pauseStop := false, online := true,
           maint := false, attempt := .loadFail }]).status = "SKIPPED" ∧
    (process_zip_ups "00501"
        [{ stopAtLoop := true, pauseStop := false, online := true,
           maint := false, attempt := .loadFail }]).errorType = "UNKNOWN" := by
  refine ⟨by decide, by decide, by decide⟩

/-- Claim C9 (amended): on stop, every Record produced before the stop
is preserved — the written merged output's row for any key that has a
produced record is exactly the last produced record for that key,
whatever the pre-existing table holds; but keys that had not yet
started an attempt at stop time are not trace-free: each still runs
`process_zip`, which performs zero attempts and appends one `SKIPPED`
record with error kind `UNKNOWN`. -/
theorem c9_stop_behaviour_amended :
    (∀ (existing : List UpsRec) (entries : List (String × List UpsIterEnv))
       (z : String),
      z ∈ (ups_batch_rows entries).map (fun r => r.zip) →
      (ups_final_output existing entries).find? (fun r => r.zip == z) =
        (ups_batch_rows entries).reverse.find? (fun r => r.zip == z)) ∧
    (∀ (key : String) (pauseS onl mnt : Bool) (att : UpsAttempt)
       (rest : List UpsIterEnv),
      process_zip_ups key
          ({ stopAtLoop := true, pauseStop := pauseS, online := onl,
             maint := mnt, attempt := att } :: rest) =
        { zip := normalize_zip (pyStripStr key), city := "", state := "",
          shipDate := "", locationText := "", imageUrl := "", imageFile := "",
          status := "SKIPPED", errorStep := "UNKNOWN", errorType := "UNKNOWN",
          errorMessage := "Timeout / Site not responding",
          rawUrl := BASE_URL }) := by
  constructor
  · intro existing entries z hz
    unfold ups_final_output write_output_file_ups
    rw [dropDupKeepLast_find?, List.reverse_append, List.find?_append]
    obtain ⟨r, hr, hrz⟩ := List.mem_map.mp hz
    have hs : ((ups_batch_rows entries).reverse.find?
        (fun q => q.zip == z)).isSome :=
      List.find?_isSome.mpr ⟨r, List.mem_reverse.mpr hr, beq_iff_eq.mpr hrz⟩
    cases h : (ups_batch_rows entries).reverse.find? (fun q => q.zip == z) with
    | none => rw [h] at hs; exact absurd hs (by decide)
    | some a => exact Option.or_some
  · intro key pauseS onl mnt att rest
    have hstop : ups_loop
        ({ stopAtLoop := true, pauseStop := pauseS, online := onl,
           maint := mnt, attempt := att } :: rest) upsInitState =
        upsInitState := by
      simp only [ups_loop]
      rw [if_neg]
      rintro ⟨-, h2⟩
      exact Bool.noConfusion h2
    simp only [process_zip_ups, hstop, upsInitState]
    rfl

/-- Witness for C9 (amended): the preservation equation at a concrete
one-key batch whose record survives into the written output. -/
theorem c9_witness :
    (ups_final_output [mkUpsRec "00502"]
        [("00501",
          [{ stopAtLoop := true, pauseStop := false, online := true,
             maint := false, attempt := .loadFail }])]).find?
        (fun r => r.zip == "00501") =
      (ups_batch_rows
        [("00501",
          [{ stopAtLoop := true, pauseStop := false, online := true,
             maint := false, attempt := .loadFail }])]).reverse.find?
        (fun r => r.zip == "00501") :=
  c9_stop_behaviour_amended.1 [mkUpsRec "00502"]
    [("00501",
      [{ stopAtLoop := true, pauseStop := false, online := true,
         maint := false, attempt := .loadFail }])] "00501" (by decide)

/-! ## Claim C4 -/

/-- Counterexample to claim C4 as stated: with an existing output
`out.xlsm` containing keys `{00501, 00502}` and input
`{00501, 00502, 00503}`, `run_batch` dispatches all three keys — not
only `00503` — because `ensure_unique_output_path` first diverts the
existing output path to a fresh timestamped name, so the processed-key
set is loaded from a nonexistent file and is empty. -/
theorem c4_counterexample :
    run_batch_dispatch cexFS ["00501", "00502", "00503"]
        { stem := "out", suffix := ".xlsm" } "20240101_000000" =
      ["00501", "00502", "00503"] ∧
    run_batch_dispatch cexFS ["00501", "00502", "00503"]
        { stem := "out", suffix := ".xlsm" } "20240101_000000" ≠ ["00503"] := by
  refine ⟨by decide, by decide⟩

/-- Claim C4 (amended): `run_batch` never filters any input key.  The
processed-key set is loaded from the path produced by
`ensure_unique_output_path`; whenever the timestamped sibling of the
output path does not exist (which `ensure_unique_output_path` is built
to guarantee, and which also covers a nonexistent original path), that
set is empty and the dispatched key list is the full input list. -/
theorem c4_no_resumption_amended :
    ∀ (fs : FileSys) (zips : List String) (outPath : PathName) (stamp : String),
      fs (with_stamp outPath stamp) = none →
      run_batch_dispatch fs zips outPath stamp = zips := by
  intro fs zips outPath stamp h
  unfold run_batch_dispatch ensure_unique_output_path load_processed_zips
  by_cases hexist : fs outPath = none
  · rw [if_pos hexist]
    simp [hexist]
  · rw [if_neg hexist]
    simp [h]

/-- Witness for C4 (amended), at the concrete filesystem `cexFS`. -/
theorem c4_witness :
    run_batch_dispatch cexFS ["00501", "00502", "00503"]
        { stem := "out", suffix := ".xlsm" } "20240101_000000" =
      ["00501", "00502", "00503"] :=
  c4_no_resumption_amended cexFS ["00501", "00502", "00503"]
    { stem := "out", suffix := ".xlsm" } "20240101_000000" (by decide)
